import Mathlib

/-! # Scheme dispatch of connection helpers (`client/connhelper/connhelper.go`)

A shallow embedding of the package `connhelper`: the process-wide table
`helpers`, `Register`, and the dispatcher `getConnectionHelper` with its two
public entry points.

Conventions of the embedding.

* A Go value of type `error` or a Go pointer is an `Option`; `none` is `nil`.
* A Go function that has side effects is a function `W → result × W` over a
  type `W` of states of the world outside this package; `W` is a parameter,
  so a statement holds for every kind of external effect.
* The package-level variable `helpers` is a component of the program state
  `State`, next to the outside world.
* A registered factory is user code. In the first embedding it acts on the
  outside world alone; `Reentrant` embeds the package a second time for
  factories whose body calls `Register` or the dispatcher.
* The packages this file imports (`net/url`, `docker/cli/.../ssh`,
  `docker/cli/.../commandconn`, `pkg/errors`) are not part of the repository.
  `url.Parse`, `ssh.SpecFromURL` and `commandconn.New` are taken as
  parameters (`Deps`); `errors.Wrap` is given by its library contract.
-/

namespace connhelper

/-! ## Errors -/

/-- Go `error` values. A `leaf` is an error made by a collaborator, known by its
message, with neither a `Cause()` nor an `Unwrap()` method. The other two are
the error types of `github.com/pkg/errors`: `withMessage{cause, msg}`, an
error under an annotation, and `withStack{error, stack}`, an error next to the
call stack of the place that made it (the recorded stack itself, which no
method used here reads, is not represented). -/
inductive GoError where
  | leaf (msg : String)
  | withMessage (cause : GoError) (msg : String)
  | withStack (err : GoError)
  deriving DecidableEq, Repr

/-- The `Error()` method: a `withMessage` prints its annotation, a colon and a
blank, then the message of its cause; a `withStack` prints the message of the
error it holds. -/
def GoError.Error : GoError → String
  | .leaf msg => msg
  | .withMessage cause msg => msg ++ ": " ++ cause.Error
  | .withStack err => err.Error

/-- The `Unwrap()` method, one layer: the cause of a `withMessage`, the error
held by a `withStack`; a `leaf` has none. -/
def GoError.Unwrap : GoError → Option GoError
  | .leaf _ => none
  | .withMessage cause _ => some cause
  | .withStack err => some err

/-- The function `errors.Cause(err)` of `github.com/pkg/errors`: it follows the
`Cause()` methods, which `withMessage` and `withStack` have, down to the first
error without one. -/
def errors.Cause : GoError → GoError
  | .leaf msg => .leaf msg
  | .withMessage cause _ => errors.Cause cause
  | .withStack err => errors.Cause err

/-- The function `errors.Wrap(err, message)` of `github.com/pkg/errors`: `nil`
for a `nil` error, otherwise `withStack{withMessage{err, message}, callers()}`. -/
def errors.Wrap (err : Option GoError) (message : String) : Option GoError :=
  match err with
  | none => none
  | some e => some (GoError.withStack (GoError.withMessage e message))

/-- Whether the text `pat` occurs in a text as a contiguous run of characters. -/
def occursIn (pat : List Char) : List Char → Bool
  | [] => pat.isEmpty
  | c :: cs => pat.isPrefixOf (c :: cs) || occursIn pat cs

/-! ## Values of the collaborating packages -/

/-- The fields of `url.URL` (package `net/url`) that a parsed daemon URL
carries; the dispatcher reads `Scheme` alone. -/
structure URL where
  Scheme : String
  User : String
  Host : String
  Path : String
  RawQuery : String
  Fragment : String
  deriving DecidableEq, Repr

/-- Modelled from the spec: the value `*ssh.Spec` returned by the SSH spec
resolver and its method `Args`, both of the package
`github.com/docker/cli/cli/connhelper/ssh`, which is not in this repository.
Section 4.5 of the spec gives the resolver as yielding the ordered arguments
`ssh` needs to reach the host; `hostArgs` is that list. -/
structure Spec where
  hostArgs : List String
  deriving DecidableEq, Repr

/-- Modelled from the spec: the method `sp.Args(remoteCommandAndArgs...)` of
the SSH spec resolver: the host arguments, then the remote command tokens. -/
def Spec.Args (sp : Spec) (remoteCommandAndArgs : List String) : List String :=
  sp.hostArgs ++ remoteCommandAndArgs

/-- What a dial returns: `(net.Conn, error)`, run against the outside world. -/
abbrev Dial (W Conn : Type) : Type := W → (Option Conn × Option GoError) × W

/-! ## The data model of the package -/

/-- The struct `ConnectionHelper`. Its type declaration has the one field
`ContextDialer func(ctx, addr)`; the composite literal in
`getConnectionHelper` sets the fields `Dialer func(ctx, network, addr)` and
`Host`. The embedding carries all three, a field that is not set holding Go's
zero value (`nil`, the empty string). -/
structure ConnectionHelper (W Ctx Conn : Type) where
  ContextDialer : Option (Ctx → String → Dial W Conn)
  Dialer : Option (Ctx → String → String → Dial W Conn)
  Host : String

/-- The result pair `(*ConnectionHelper, error)`. -/
abbrev HelperResult (W Ctx Conn : Type) : Type :=
  Option (ConnectionHelper W Ctx Conn) × Option GoError

/-- A registered factory `func(*url.URL) (*ConnectionHelper, error)`: a
function value other than `nil`, user code that acts on the outside world and
makes no call back into this package. Factories that call `Register` or the
dispatcher from their body are the subject of `Reentrant` below. -/
abbrev Factory (W Ctx Conn : Type) : Type :=
  URL → W → HelperResult W Ctx Conn × W

/-- The type of the package variable `helpers`,
`map[string]func(*url.URL) (*ConnectionHelper, error)`: a lookup yields the
entry or its absence (the `ok` flag). -/
abbrev Registry (W Ctx Conn : Type) : Type :=
  String → Option (Factory W Ctx Conn)

/-- The program state: the package variable `helpers` and the world outside
the package. -/
structure State (W Ctx Conn : Type) where
  helpers : Registry W Ctx Conn
  world : W

/-- The collaborators the dispatcher calls: `url.Parse` and
`ssh.SpecFromURL`, which compute a value or an error from their argument, and
`commandconn.New(ctx, cmd, args...)`, which spawns the subprocess. -/
structure Deps (W Ctx Conn : Type) where
  urlParse : String → Except GoError URL
  SpecFromURL : String → Except GoError Spec
  commandconnNew : Ctx → String → List String → Dial W Conn

/-- The initial value of `helpers`: the empty map. -/
def emptyHelpers (W Ctx Conn : Type) : Registry W Ctx Conn := fun _ => none

/-! ## The operations -/

section Operations

variable {W Ctx Conn : Type}

/-- The function `Register`: `helpers[scheme] = fn`. -/
def Register (scheme : String) (fn : Factory W Ctx Conn)
    (st : State W Ctx Conn) : State W Ctx Conn :=
  ⟨fun key => if key = scheme then some fn else st.helpers key, st.world⟩

/-- The function `getConnectionHelper`. -/
def getConnectionHelper (deps : Deps W Ctx Conn) (daemonURL : String)
    (sshFlags : List String) (st : State W Ctx Conn) :
    HelperResult W Ctx Conn × State W Ctx Conn :=
  match deps.urlParse daemonURL with
  | .error err => ((none, some err), st)
  | .ok u =>
    if u.Scheme = "ssh" then
      match deps.SpecFromURL daemonURL with
      | .error err =>
        ((none, errors.Wrap (some err) "ssh host connection is not valid"), st)
      | .ok sp =>
        ((some
            ⟨none,
             some (fun ctx _network _addr =>
               deps.commandconnNew ctx "ssh"
                 (sshFlags ++ sp.Args ["docker", "system", "dial-stdio"])),
             "http://docker.example.com"⟩,
          none), st)
    else
      match st.helpers u.Scheme with
      | none => ((none, none), st)
      | some fn =>
        let r := fn u st.world
        (r.1, ⟨st.helpers, r.2⟩)

/-- The function `GetConnectionHelperWithSSHOpts`. -/
def GetConnectionHelperWithSSHOpts (deps : Deps W Ctx Conn) (daemonURL : String)
    (sshFlags : List String) (st : State W Ctx Conn) :
    HelperResult W Ctx Conn × State W Ctx Conn :=
  getConnectionHelper deps daemonURL sshFlags st

/-- The function `GetConnectionHelper`: the dispatch with `nil` flags. -/
def GetConnectionHelper (deps : Deps W Ctx Conn) (daemonURL : String)
    (st : State W Ctx Conn) : HelperResult W Ctx Conn × State W Ctx Conn :=
  getConnectionHelper deps daemonURL [] st

end Operations

/-! ## Factories that call back into the package

A registered factory is a Go function value, and line 63 runs it: its body may
call the exported functions of this package, `Register`,
`GetConnectionHelper` and `GetConnectionHelperWithSSHOpts`, before it returns.
In `Reentrant` a factory is therefore a program over those calls, the table
holds such programs, and the dispatcher runs them against the whole state.
The functions of the package are embedded a second time on this state; on
factories that make no call back they agree with the ones above
(`Reentrant.getConnectionHelper_liftState`). -/

namespace Reentrant

/-- The body of a factory, as the sequence of what it does.
* `ret result`: it returns `result`.
* `world act next`: it acts on the outside world, which becomes `act w`, and
  goes on as `next w`, where `w` is the world it found.
* `register scheme fn next`: it calls `Register(scheme, fn)`, then goes on.
* `dispatch daemonURL sshFlags next`: it calls
  `GetConnectionHelperWithSSHOpts(daemonURL, sshFlags)` (with no flags, that
  is `GetConnectionHelper(daemonURL)`) and goes on as `next` of what the call
  returned. -/
inductive Prog (W Ctx Conn : Type) : Type where
  | ret (result : HelperResult W Ctx Conn)
  | world (act : W → W) (next : W → Prog W Ctx Conn)
  | register (scheme : String) (fn : URL → Prog W Ctx Conn) (next : Prog W Ctx Conn)
  | dispatch (daemonURL : String) (sshFlags : List String)
      (next : HelperResult W Ctx Conn → Prog W Ctx Conn)

/-- A registered factory `func(*url.URL) (*ConnectionHelper, error)`. -/
abbrev Factory (W Ctx Conn : Type) : Type := URL → Prog W Ctx Conn

/-- The type of the package variable `helpers`. -/
abbrev Registry (W Ctx Conn : Type) : Type := String → Option (Factory W Ctx Conn)

/-- The program state: the package variable `helpers` and the world outside
the package. -/
structure State (W Ctx Conn : Type) where
  helpers : Registry W Ctx Conn
  world : W

/-- What a call yields: the returned pair and the state after it, or nothing
when the calls nest deeper than the depth allowed (in Go, a recursion without
end). -/
abbrev Outcome (W Ctx Conn : Type) : Type :=
  Option (HelperResult W Ctx Conn × State W Ctx Conn)

section Operations

variable {W Ctx Conn : Type}

/-- The function `Register`: `helpers[scheme] = fn`. -/
def Register (scheme : String) (fn : Factory W Ctx Conn)
    (st : State W Ctx Conn) : State W Ctx Conn :=
  ⟨fun key => if key = scheme then some fn else st.helpers key, st.world⟩

/-- Running the body of a factory from a state; `reenter` is the dispatcher
that a call back reaches. -/
def Prog.run (reenter : String → List String → State W Ctx Conn → Outcome W Ctx Conn) :
    Prog W Ctx Conn → State W Ctx Conn → Outcome W Ctx Conn
  | .ret result, st => some (result, st)
  | .world act next, st => (next st.world).run reenter ⟨st.helpers, act st.world⟩
  | .register scheme fn next, st => next.run reenter (Register scheme fn st)
  | .dispatch daemonURL sshFlags next, st =>
    match reenter daemonURL sshFlags st with
    | none => none
    | some (result, st') => (next result).run reenter st'

/-- The body of the function `getConnectionHelper`, with the dispatcher that
the factory of line 63 reaches when it calls back given as `reenter`. -/
def getConnectionHelperBody (deps : Deps W Ctx Conn)
    (reenter : String → List String → State W Ctx Conn → Outcome W Ctx Conn)
    (daemonURL : String) (sshFlags : List String) (st : State W Ctx Conn) :
    Outcome W Ctx Conn :=
  match deps.urlParse daemonURL with
  | .error err => some ((none, some err), st)
  | .ok u =>
    if u.Scheme = "ssh" then
      match deps.SpecFromURL daemonURL with
      | .error err =>
        some ((none, errors.Wrap (some err) "ssh host connection is not valid"), st)
      | .ok sp =>
        some ((some
            ⟨none,
             some (fun ctx _network _addr =>
               deps.commandconnNew ctx "ssh"
                 (sshFlags ++ sp.Args ["docker", "system", "dial-stdio"])),
             "http://docker.example.com"⟩,
          none), st)
    else
      match st.helpers u.Scheme with
      | none => some ((none, none), st)
      | some fn => (fn u).run reenter st

/-- The function `getConnectionHelper`; `depth` is how many dispatches may
nest inside this one. -/
def getConnectionHelper (deps : Deps W Ctx Conn) :
    Nat → String → List String → State W Ctx Conn → Outcome W Ctx Conn
  | 0 => getConnectionHelperBody deps (fun _ _ _ => none)
  | depth + 1 => getConnectionHelperBody deps (getConnectionHelper deps depth)

/-- The function `GetConnectionHelperWithSSHOpts`. -/
def GetConnectionHelperWithSSHOpts (deps : Deps W Ctx Conn) (depth : Nat)
    (daemonURL : String) (sshFlags : List String) (st : State W Ctx Conn) :
    Outcome W Ctx Conn :=
  getConnectionHelper deps depth daemonURL sshFlags st

/-- The function `GetConnectionHelper`: the dispatch with `nil` flags. -/
def GetConnectionHelper (deps : Deps W Ctx Conn) (depth : Nat)
    (daemonURL : String) (st : State W Ctx Conn) : Outcome W Ctx Conn :=
  getConnectionHelper deps depth daemonURL [] st

/-- A body that makes no call back into the package: it neither registers nor
dispatches, whatever world it finds. -/
def Prog.callbackFree : Prog W Ctx Conn → Prop
  | .ret _ => True
  | .world _ next => ∀ w : W, (next w).callbackFree
  | .register _ _ _ => False
  | .dispatch _ _ _ => False

/-- A factory of the first embedding, as a body: one act on the world, then
the return. -/
def ofPlain (fn : connhelper.Factory W Ctx Conn) : Factory W Ctx Conn :=
  fun u => .world (fun w => (fn u w).2) (fun w => .ret (fn u w).1)

/-- A state of the first embedding, as a state of this one. -/
def liftState (st : connhelper.State W Ctx Conn) : State W Ctx Conn :=
  ⟨fun key => (st.helpers key).map ofPlain, st.world⟩

end Operations

end Reentrant

/-! ## A concrete instance

Small stand-ins for the three collaborators, on which the dispatcher can be run:
the outside world is the log of what was executed, a connection is the command
line of its subprocess. -/

/-- The characters before the first colon, and those after it. -/
def splitAtColon : List Char → Option (List Char × List Char)
  | [] => none
  | c :: cs =>
    if c = ':' then some ([], cs)
    else (splitAtColon cs).map (fun p => (c :: p.1, p.2))

/-- A stand-in for `url.Parse`: the scheme is what precedes the first colon
(none when there is no colon), and a string that starts with a colon is
rejected. -/
def sampleParse (rawURL : String) : Except GoError URL :=
  match splitAtColon rawURL.data with
  | none => .ok ⟨"", "", "", rawURL, "", ""⟩
  | some ([], _) => .error (.leaf "missing protocol scheme")
  | some (scheme, rest) => .ok ⟨String.mk scheme, "", "", String.mk rest, "", ""⟩

/-- A stand-in for `ssh.SpecFromURL`: the host is what stands between `ssh://`
and the next slash, and an empty host is rejected. -/
def sampleSpecFromURL (daemonURL : String) : Except GoError Spec :=
  match daemonURL.data with
  | 's' :: 's' :: 'h' :: ':' :: '/' :: '/' :: rest =>
    match rest.takeWhile (fun c => c != '/') with
    | [] => .error (.leaf "no host specified")
    | host => .ok ⟨["--", String.mk host]⟩
  | _ => .error (.leaf "expected scheme ssh")

/-- A stand-in for `commandconn.New`: the connection is the command line, and
the command line is appended to the log. -/
def sampleNew (_ctx : Nat) (cmd : String) (args : List String) :
    Dial (List (List String)) (List String) :=
  fun w => ((some (cmd :: args), none), w ++ [cmd :: args])

/-- The three stand-ins together. -/
def sampleDeps : Deps (List (List String)) Nat (List String) :=
  ⟨sampleParse, sampleSpecFromURL, sampleNew⟩

/-- A factory that succeeds: it logs its tag and the scheme it was called
with, and returns a helper whose host is the rest of the URL. -/
def sampleFactory (tag : String) : Factory (List (List String)) Nat (List String) :=
  fun u w => ((some ⟨none, none, u.Path⟩, none), w ++ [[tag, u.Scheme]])

/-- A factory that fails: it logs its tag, and returns an error. -/
def failingFactory (tag : String) : Factory (List (List String)) Nat (List String) :=
  fun _u w => ((none, some (.leaf "factory failed")), w ++ [[tag]])

/-- The state at start-up: no scheme registered, nothing executed. -/
def sampleState : State (List (List String)) Nat (List String) :=
  ⟨emptyHelpers _ _ _, []⟩

/-- A factory that calls `Register("baz", ...)` and returns `(nil, nil)`. -/
def registeringFactory : Reentrant.Factory (List (List String)) Nat (List String) :=
  fun _u => .register "baz" (Reentrant.ofPlain (sampleFactory "Z")) (.ret (none, none))

/-- A factory that hands the URL `foo://x` to `GetConnectionHelper` and
returns what that call returns. -/
def aliasFactory : Reentrant.Factory (List (List String)) Nat (List String) :=
  fun _u => .dispatch "foo://x" [] (fun result => .ret result)

/-- The state at start-up, in the embedding with call backs. -/
def reentrantStart : Reentrant.State (List (List String)) Nat (List String) :=
  ⟨fun _ => none, []⟩

/-! ## Lemmas on the dispatcher -/

section Lemmas

variable {W Ctx Conn : Type}

/-- A lookup of the key just written yields the written factory. -/
theorem Register_helpers_same (scheme : String) (fn : Factory W Ctx Conn)
    (st : State W Ctx Conn) : (Register scheme fn st).helpers scheme = some fn := by
  simp [Register]

/-- A lookup of any other key is as before the write. -/
theorem Register_helpers_other (scheme key : String) (fn : Factory W Ctx Conn)
    (st : State W Ctx Conn) (hne : key ≠ scheme) :
    (Register scheme fn st).helpers key = st.helpers key := by
  simp [Register, hne]

/-- A write does not touch the outside world. -/
theorem Register_world (scheme : String) (fn : Factory W Ctx Conn)
    (st : State W Ctx Conn) : (Register scheme fn st).world = st.world := rfl

/-- A second write under the same key leaves no trace of the first. -/
theorem Register_twice (scheme : String) (fn₁ fn₂ : Factory W Ctx Conn)
    (st : State W Ctx Conn) :
    Register scheme fn₂ (Register scheme fn₁ st) = Register scheme fn₂ st := by
  unfold Register
  congr 1
  funext key
  by_cases hk : key = scheme <;> simp [hk]

/-- The dispatcher on a URL that does not parse. -/
theorem dispatch_of_parse_error (deps : Deps W Ctx Conn) (daemonURL : String)
    (sshFlags : List String) (st : State W Ctx Conn) (err : GoError)
    (hparse : deps.urlParse daemonURL = .error err) :
    getConnectionHelper deps daemonURL sshFlags st = ((none, some err), st) := by
  simp [getConnectionHelper, hparse]

/-- The dispatcher on an `ssh` URL that the resolver rejects. -/
theorem dispatch_of_ssh_rejected (deps : Deps W Ctx Conn) (daemonURL : String)
    (sshFlags : List String) (st : State W Ctx Conn) (u : URL) (err : GoError)
    (hparse : deps.urlParse daemonURL = .ok u) (hssh : u.Scheme = "ssh")
    (hspec : deps.SpecFromURL daemonURL = .error err) :
    getConnectionHelper deps daemonURL sshFlags st =
      ((none,
        some (GoError.withStack (GoError.withMessage err "ssh host connection is not valid"))),
       st) := by
  simp [getConnectionHelper, hparse, hssh, hspec, errors.Wrap]

/-- The dispatcher on an `ssh` URL that the resolver accepts. -/
theorem dispatch_of_ssh_accepted (deps : Deps W Ctx Conn) (daemonURL : String)
    (sshFlags : List String) (st : State W Ctx Conn) (u : URL) (sp : Spec)
    (hparse : deps.urlParse daemonURL = .ok u) (hssh : u.Scheme = "ssh")
    (hspec : deps.SpecFromURL daemonURL = .ok sp) :
    getConnectionHelper deps daemonURL sshFlags st =
      ((some
          ⟨none,
           some (fun ctx _network _addr =>
             deps.commandconnNew ctx "ssh"
               (sshFlags ++ sp.Args ["docker", "system", "dial-stdio"])),
           "http://docker.example.com"⟩,
        none), st) := by
  simp [getConnectionHelper, hparse, hssh, hspec]

/-- The dispatcher on a URL of another scheme that has no entry. -/
theorem dispatch_of_absent (deps : Deps W Ctx Conn) (daemonURL : String)
    (sshFlags : List String) (st : State W Ctx Conn) (u : URL)
    (hparse : deps.urlParse daemonURL = .ok u) (hssh : u.Scheme ≠ "ssh")
    (habsent : st.helpers u.Scheme = none) :
    getConnectionHelper deps daemonURL sshFlags st = ((none, none), st) := by
  simp [getConnectionHelper, hparse, hssh, habsent]

/-- The dispatcher on a URL of another scheme that has an entry. -/
theorem dispatch_of_present (deps : Deps W Ctx Conn) (daemonURL : String)
    (sshFlags : List String) (st : State W Ctx Conn) (u : URL)
    (fn : Factory W Ctx Conn)
    (hparse : deps.urlParse daemonURL = .ok u) (hssh : u.Scheme ≠ "ssh")
    (hpresent : st.helpers u.Scheme = some fn) :
    getConnectionHelper deps daemonURL sshFlags st =
      ((fn u st.world).1, ⟨st.helpers, (fn u st.world).2⟩) := by
  simp [getConnectionHelper, hparse, hssh, hpresent]

/-- With call backs: the dispatcher at any depth is its body, over some
dispatcher for the calls back. -/
theorem reentrant_dispatch_is_body (deps : Deps W Ctx Conn) (depth : Nat) :
    ∃ reenter : String → List String → Reentrant.State W Ctx Conn →
        Reentrant.Outcome W Ctx Conn,
      Reentrant.getConnectionHelper deps depth = Reentrant.getConnectionHelperBody deps reenter := by
  cases depth with
  | zero => exact ⟨_, rfl⟩
  | succ n => exact ⟨_, rfl⟩

/-- With call backs: a lookup of any other key is as before the write. -/
theorem reentrant_register_other (scheme key : String)
    (fn : Reentrant.Factory W Ctx Conn) (st : Reentrant.State W Ctx Conn)
    (hne : key ≠ scheme) :
    (Reentrant.Register scheme fn st).helpers key = st.helpers key := by
  simp [Reentrant.Register, hne]

/-- A body that makes no call back returns, leaves the table as it found it,
and its result and its effect on the world depend on neither the table nor the
dispatcher in place. -/
theorem run_of_callbackFree (p : Reentrant.Prog W Ctx Conn) (hfree : p.callbackFree)
    (reenter₁ reenter₂ : String → List String → Reentrant.State W Ctx Conn →
      Reentrant.Outcome W Ctx Conn)
    (table₁ table₂ : Reentrant.Registry W Ctx Conn) (w : W) :
    ∃ (result : HelperResult W Ctx Conn) (w' : W),
      p.run reenter₁ ⟨table₁, w⟩ = some (result, ⟨table₁, w'⟩) ∧
      p.run reenter₂ ⟨table₂, w⟩ = some (result, ⟨table₂, w'⟩) := by
  induction p generalizing w with
  | ret result => exact ⟨result, w, rfl, rfl⟩
  | world act next ih =>
    simp only [Reentrant.Prog.callbackFree] at hfree
    simpa [Reentrant.Prog.run] using ih w (hfree w) (act w)
  | register scheme fn next _ _ => exact absurd hfree (by simp [Reentrant.Prog.callbackFree])
  | dispatch daemonURL sshFlags next _ => exact absurd hfree (by simp [Reentrant.Prog.callbackFree])

/-- With call backs: when the factory that a dispatch runs makes no call back,
the dispatch returns, at every depth, and leaves the table as it was. -/
theorem reentrant_dispatch_keeps_table (deps : Deps W Ctx Conn) (depth : Nat)
    (daemonURL : String) (sshFlags : List String) (st : Reentrant.State W Ctx Conn)
    (hfree : ∀ (u : URL) (G : Reentrant.Factory W Ctx Conn),
      deps.urlParse daemonURL = .ok u → u.Scheme ≠ "ssh" →
      st.helpers u.Scheme = some G → (G u).callbackFree) :
    ∃ (result : HelperResult W Ctx Conn) (w' : W),
      Reentrant.getConnectionHelper deps depth daemonURL sshFlags st =
        some (result, ⟨st.helpers, w'⟩) := by
  obtain ⟨reenter, hbody⟩ := reentrant_dispatch_is_body deps depth
  rw [hbody]
  unfold Reentrant.getConnectionHelperBody
  cases hparse : deps.urlParse daemonURL with
  | error err => exact ⟨_, st.world, rfl⟩
  | ok u =>
    by_cases hssh : u.Scheme = "ssh"
    · cases hspec : deps.SpecFromURL daemonURL with
      | error err =>
        exact ⟨(none, errors.Wrap (some err) "ssh host connection is not valid"), st.world,
          by simp [hssh]⟩
      | ok sp =>
        refine ⟨(some
            ⟨none,
             some (fun ctx _network _addr =>
               deps.commandconnNew ctx "ssh"
                 (sshFlags ++ sp.Args ["docker", "system", "dial-stdio"])),
             "http://docker.example.com"⟩,
          none), st.world, ?_⟩
        simp [hssh]
    · cases hlook : st.helpers u.Scheme with
      | none => exact ⟨(none, none), st.world, by simp [hssh, hlook]⟩
      | some G =>
        obtain ⟨result, w', hrun, _⟩ :=
          run_of_callbackFree (G u) (hfree u G hparse hssh hlook) reenter reenter
            st.helpers st.helpers st.world
        exact ⟨result, w', by simpa [hssh, hlook] using hrun⟩

/-- The two embeddings agree: on a state whose factories make no call back,
the dispatcher with call backs returns, at every depth, what the dispatcher of
the first embedding returns. -/
theorem getConnectionHelper_liftState (deps : Deps W Ctx Conn) (depth : Nat)
    (daemonURL : String) (sshFlags : List String) (st : State W Ctx Conn) :
    Reentrant.getConnectionHelper deps depth daemonURL sshFlags (Reentrant.liftState st) =
      some ((getConnectionHelper deps daemonURL sshFlags st).1,
        Reentrant.liftState (getConnectionHelper deps daemonURL sshFlags st).2) := by
  obtain ⟨reenter, hbody⟩ := reentrant_dispatch_is_body deps depth
  rw [hbody]
  unfold Reentrant.getConnectionHelperBody getConnectionHelper
  cases hparse : deps.urlParse daemonURL with
  | error err => rfl
  | ok u =>
    by_cases hssh : u.Scheme = "ssh"
    · cases hspec : deps.SpecFromURL daemonURL with
      | error err => simp [hssh]
      | ok sp => simp [hssh]
    · cases hlook : st.helpers u.Scheme with
      | none => simp [hssh, hlook, Reentrant.liftState]
      | some fn =>
        simp [hssh, hlook, Reentrant.liftState, Reentrant.ofPlain, Reentrant.Prog.run]

end Lemmas

/-! ## The claims -/

section Claims

variable {W Ctx Conn : Type}

/-- C1: when the daemon URL parses to a URL whose scheme is not `ssh` and has
no entry in `helpers`, `getConnectionHelper` returns a nil helper and a nil
error, whatever the flags and the rest of the state, and so do
`GetConnectionHelper` and `GetConnectionHelperWithSSHOpts`; the state is left
as it was. -/
theorem unregistered_scheme_yields_nil_nil (deps : Deps W Ctx Conn)
    (st : State W Ctx Conn) (daemonURL : String) (sshFlags : List String) (u : URL)
    (hparse : deps.urlParse daemonURL = .ok u) (hssh : u.Scheme ≠ "ssh")
    (habsent : st.helpers u.Scheme = none) :
    getConnectionHelper deps daemonURL sshFlags st = ((none, none), st) ∧
    GetConnectionHelper deps daemonURL st = ((none, none), st) ∧
    GetConnectionHelperWithSSHOpts deps daemonURL sshFlags st = ((none, none), st) :=
  ⟨dispatch_of_absent deps daemonURL sshFlags st u hparse hssh habsent,
   dispatch_of_absent deps daemonURL [] st u hparse hssh habsent,
   dispatch_of_absent deps daemonURL sshFlags st u hparse hssh habsent⟩

/-- Witness of C1: the URL `custom://x` with nothing registered. -/
theorem unregistered_scheme_yields_nil_nil_witness :
    sampleDeps.urlParse "custom://x" = .ok ⟨"custom", "", "", "//x", "", ""⟩ ∧
    (⟨"custom", "", "", "//x", "", ""⟩ : URL).Scheme ≠ "ssh" ∧
    sampleState.helpers "custom" = none ∧
    getConnectionHelper sampleDeps "custom://x" ["-4"] sampleState
      = ((none, none), sampleState) ∧
    GetConnectionHelper sampleDeps "custom://x" sampleState = ((none, none), sampleState) ∧
    GetConnectionHelperWithSSHOpts sampleDeps "custom://x" ["-4"] sampleState
      = ((none, none), sampleState) :=
  ⟨rfl, by decide, rfl,
   unregistered_scheme_yields_nil_nil sampleDeps sampleState "custom://x" ["-4"]
     ⟨"custom", "", "", "//x", "", ""⟩ rfl (by decide) rfl⟩

/-- C2: for a scheme `s` other than `ssh`, a factory `F` and a daemon URL that
parses to `u` with scheme `s`: after `Register(s, F)` the dispatcher runs `F`
on `u`, once, from the world as it stands, and returns the pair that `F`
returns, unchanged, be it a helper or an error. -/
theorem registered_factory_result_returned (deps : Deps W Ctx Conn)
    (st : State W Ctx Conn) (s : String) (F : Factory W Ctx Conn)
    (daemonURL : String) (sshFlags : List String) (u : URL)
    (hs : s ≠ "ssh") (hparse : deps.urlParse daemonURL = .ok u)
    (hscheme : u.Scheme = s) :
    getConnectionHelper deps daemonURL sshFlags (Register s F st) =
      ((F u st.world).1, ⟨(Register s F st).helpers, (F u st.world).2⟩) := by
  subst hscheme
  exact dispatch_of_present deps daemonURL sshFlags (Register u.Scheme F st) u F hparse hs
    (Register_helpers_same u.Scheme F st)

/-- Witness of C2: a failing factory under `foo`, and the URL `foo://anything`. -/
theorem registered_factory_result_returned_witness :
    "foo" ≠ "ssh" ∧
    sampleDeps.urlParse "foo://anything" = .ok ⟨"foo", "", "", "//anything", "", ""⟩ ∧
    getConnectionHelper sampleDeps "foo://anything" []
        (Register "foo" (failingFactory "F") sampleState) =
      ((none, some (.leaf "factory failed")),
       ⟨(Register "foo" (failingFactory "F") sampleState).helpers, [["F"]]⟩) :=
  ⟨by decide, rfl,
   registered_factory_result_returned sampleDeps sampleState "foo" (failingFactory "F")
     "foo://anything" [] ⟨"foo", "", "", "//anything", "", ""⟩ (by decide) rfl rfl⟩

/-- C3: for a scheme `s` other than `ssh` and factories `F1`, `F2`: after
`Register(s, F1)` then `Register(s, F2)`, the dispatcher on a URL of scheme `s`
returns what `F2` returns on the parsed URL; the outcome (result, world and
table) is that of a state in which `F1` was never registered, so `F1` is not
run. -/
theorem later_registration_overwrites (deps : Deps W Ctx Conn)
    (st : State W Ctx Conn) (s : String) (F1 F2 : Factory W Ctx Conn)
    (daemonURL : String) (sshFlags : List String) (u : URL)
    (hs : s ≠ "ssh") (hparse : deps.urlParse daemonURL = .ok u)
    (hscheme : u.Scheme = s) :
    getConnectionHelper deps daemonURL sshFlags (Register s F2 (Register s F1 st)) =
      ((F2 u st.world).1, ⟨(Register s F2 st).helpers, (F2 u st.world).2⟩) := by
  subst hscheme
  rw [Register_twice]
  exact dispatch_of_present deps daemonURL sshFlags (Register u.Scheme F2 st) u F2 hparse hs
    (Register_helpers_same u.Scheme F2 st)

/-- Witness of C3: a failing factory, then a succeeding one, under `foo`. -/
theorem later_registration_overwrites_witness :
    "foo" ≠ "ssh" ∧
    sampleDeps.urlParse "foo://anything" = .ok ⟨"foo", "", "", "//anything", "", ""⟩ ∧
    getConnectionHelper sampleDeps "foo://anything" []
        (Register "foo" (sampleFactory "second")
          (Register "foo" (failingFactory "first") sampleState)) =
      ((some ⟨none, none, "//anything"⟩, none),
       ⟨(Register "foo" (sampleFactory "second") sampleState).helpers,
        [["second", "foo"]]⟩) :=
  ⟨by decide, rfl,
   later_registration_overwrites sampleDeps sampleState "foo" (failingFactory "first")
     (sampleFactory "second") "foo://anything" [] ⟨"foo", "", "", "//anything", "", ""⟩
     (by decide) rfl rfl⟩

/-- C4: when the daemon URL parses with scheme `ssh` and the SSH spec resolver
fails on it, `getConnectionHelper` returns a nil helper and a non-nil error,
whatever the flags and the state. -/
theorem ssh_rejected_yields_error (deps : Deps W Ctx Conn)
    (st : State W Ctx Conn) (daemonURL : String) (sshFlags : List String) (u : URL)
    (cause : GoError)
    (hparse : deps.urlParse daemonURL = .ok u) (hssh : u.Scheme = "ssh")
    (hspec : deps.SpecFromURL daemonURL = .error cause) :
    (getConnectionHelper deps daemonURL sshFlags st).1.1 = none ∧
    (getConnectionHelper deps daemonURL sshFlags st).1.2 ≠ none := by
  rw [dispatch_of_ssh_rejected deps daemonURL sshFlags st u cause hparse hssh hspec]
  exact ⟨rfl, by simp⟩

/-- Witness of C4: the URL `ssh://`, which has no host. -/
theorem ssh_rejected_yields_error_witness :
    sampleDeps.urlParse "ssh://" = .ok ⟨"ssh", "", "", "//", "", ""⟩ ∧
    sampleDeps.SpecFromURL "ssh://" = .error (.leaf "no host specified") ∧
    (getConnectionHelper sampleDeps "ssh://" ["-4"] sampleState).1.1 = none ∧
    (getConnectionHelper sampleDeps "ssh://" ["-4"] sampleState).1.2 ≠ none :=
  ⟨rfl, rfl,
   ssh_rejected_yields_error sampleDeps sampleState "ssh://" ["-4"]
     ⟨"ssh", "", "", "//", "", ""⟩ (.leaf "no host specified") rfl rfl rfl⟩

/-- C5: when parsing the daemon URL fails with error `e`, `getConnectionHelper`
returns a nil helper and the error `e` itself, and leaves the state as it was;
this holds with any resolver and any table in place of the given ones, so
neither of them takes part. -/
theorem parse_error_returned_verbatim (deps : Deps W Ctx Conn)
    (st : State W Ctx Conn) (daemonURL : String) (sshFlags : List String) (e : GoError)
    (hparse : deps.urlParse daemonURL = .error e) :
    getConnectionHelper deps daemonURL sshFlags st = ((none, some e), st) ∧
    ∀ (resolver : String → Except GoError Spec) (table : Registry W Ctx Conn),
      getConnectionHelper ⟨deps.urlParse, resolver, deps.commandconnNew⟩ daemonURL sshFlags
          ⟨table, st.world⟩ = ((none, some e), ⟨table, st.world⟩) :=
  ⟨dispatch_of_parse_error deps daemonURL sshFlags st e hparse,
   fun resolver table =>
     dispatch_of_parse_error ⟨deps.urlParse, resolver, deps.commandconnNew⟩ daemonURL sshFlags
       ⟨table, st.world⟩ e hparse⟩

/-- Witness of C5: the string `://x`, with a factory registered under the
empty scheme. -/
theorem parse_error_returned_verbatim_witness :
    sampleDeps.urlParse "://x" = .error (.leaf "missing protocol scheme") ∧
    getConnectionHelper sampleDeps "://x" ["-4"] (Register "" (sampleFactory "F") sampleState)
      = ((none, some (.leaf "missing protocol scheme")),
         Register "" (sampleFactory "F") sampleState) :=
  ⟨rfl,
   (parse_error_returned_verbatim sampleDeps (Register "" (sampleFactory "F") sampleState)
     "://x" ["-4"] (.leaf "missing protocol scheme") rfl).1⟩

/-- C6: for a daemon URL of scheme `ssh` that the resolver accepts, and any
flags, `getConnectionHelper` returns a helper and a nil error; the helper's
dialer, for every context, network and address, is the call of the
process-stream adapter with program `ssh` and the arguments: the flags in the
order given, then the host arguments of the resolver, then `docker`, `system`,
`dial-stdio`. The address takes no part in the arguments. -/
theorem ssh_dialer_argument_list (deps : Deps W Ctx Conn)
    (st : State W Ctx Conn) (daemonURL : String) (sshFlags : List String) (u : URL)
    (sp : Spec)
    (hparse : deps.urlParse daemonURL = .ok u) (hssh : u.Scheme = "ssh")
    (hspec : deps.SpecFromURL daemonURL = .ok sp) :
    ∃ (helper : ConnectionHelper W Ctx Conn) (dial : Ctx → String → String → Dial W Conn),
      getConnectionHelper deps daemonURL sshFlags st = ((some helper, none), st) ∧
      helper.Dialer = some dial ∧
      ∀ (ctx : Ctx) (network addr : String),
        dial ctx network addr =
          deps.commandconnNew ctx "ssh"
            (sshFlags ++ sp.hostArgs ++ ["docker", "system", "dial-stdio"]) := by
  refine ⟨_, _, dispatch_of_ssh_accepted deps daemonURL sshFlags st u sp hparse hssh hspec,
    rfl, ?_⟩
  intro ctx network addr
  simp [Spec.Args, List.append_assoc]

/-- Witness of C6: the URL `ssh://alice@build.internal/` with the flag `-4`. -/
theorem ssh_dialer_argument_list_witness :
    sampleDeps.urlParse "ssh://alice@build.internal/"
      = .ok ⟨"ssh", "", "", "//alice@build.internal/", "", ""⟩ ∧
    sampleDeps.SpecFromURL "ssh://alice@build.internal/"
      = .ok ⟨["--", "alice@build.internal"]⟩ ∧
    ∃ (helper : ConnectionHelper (List (List String)) Nat (List String))
      (dial : Nat → String → String → Dial (List (List String)) (List String)),
      getConnectionHelper sampleDeps "ssh://alice@build.internal/" ["-4"] sampleState
        = ((some helper, none), sampleState) ∧
      helper.Dialer = some dial ∧
      ∀ (ctx : Nat) (network addr : String),
        dial ctx network addr =
          sampleDeps.commandconnNew ctx "ssh"
            (["-4"] ++ ["--", "alice@build.internal"] ++ ["docker", "system", "dial-stdio"]) :=
  ⟨rfl, rfl,
   ssh_dialer_argument_list sampleDeps sampleState "ssh://alice@build.internal/" ["-4"]
     ⟨"ssh", "", "", "//alice@build.internal/", "", ""⟩ ⟨["--", "alice@build.internal"]⟩
     rfl rfl rfl⟩

/-- C7, as the code has it: when the daemon URL parses with scheme `ssh` and
the SSH spec resolver fails on it with cause `e`, the error returned by
`getConnectionHelper` is `e` wrapped by `errors.Wrap` under the annotation
`ssh host connection is not valid`. Its message is that text, a colon and a
blank, then the message of `e`. Its underlying cause is `e`: one `Unwrap()`
takes off the stack layer and yields the annotated error, a second one yields
`e`, and `errors.Cause` of it is `errors.Cause` of `e` (which is `e` itself
when `e` has no cause of its own). It is never `e` itself. -/
theorem ssh_rejection_wraps_cause (deps : Deps W Ctx Conn)
    (st : State W Ctx Conn) (daemonURL : String) (sshFlags : List String) (u : URL)
    (e : GoError)
    (hparse : deps.urlParse daemonURL = .ok u) (hssh : u.Scheme = "ssh")
    (hspec : deps.SpecFromURL daemonURL = .error e) :
    ∃ err : GoError,
      getConnectionHelper deps daemonURL sshFlags st = ((none, some err), st) ∧
      some err = errors.Wrap (some e) "ssh host connection is not valid" ∧
      err.Error = "ssh host connection is not valid: " ++ e.Error ∧
      err.Unwrap = some (GoError.withMessage e "ssh host connection is not valid") ∧
      err.Unwrap.bind GoError.Unwrap = some e ∧
      errors.Cause err = errors.Cause e ∧
      (e.Unwrap = none → errors.Cause err = e) ∧
      err ≠ e :=
  ⟨GoError.withStack (GoError.withMessage e "ssh host connection is not valid"),
   dispatch_of_ssh_rejected deps daemonURL sshFlags st u e hparse hssh hspec,
   rfl, by simp [GoError.Error], rfl, rfl, by simp [errors.Cause],
   fun hleaf => by
     cases e with
     | leaf msg => simp [errors.Cause]
     | withMessage cause msg => simp [GoError.Unwrap] at hleaf
     | withStack inner => simp [GoError.Unwrap] at hleaf,
   fun h => by
     have hsz := congrArg sizeOf h
     simp at hsz
     omega⟩

/-- Witness of C7 as the code has it: the URL `ssh://`, which has no host. -/
theorem ssh_rejection_wraps_cause_witness :
    sampleDeps.urlParse "ssh://" = .ok ⟨"ssh", "", "", "//", "", ""⟩ ∧
    sampleDeps.SpecFromURL "ssh://" = .error (.leaf "no host specified") ∧
    ∃ err : GoError,
      getConnectionHelper sampleDeps "ssh://" [] sampleState = ((none, some err), sampleState) ∧
      some err = errors.Wrap (some (.leaf "no host specified"))
        "ssh host connection is not valid" ∧
      err.Error = "ssh host connection is not valid: " ++ GoError.Error (.leaf "no host specified") ∧
      err.Unwrap =
        some (GoError.withMessage (.leaf "no host specified") "ssh host connection is not valid") ∧
      err.Unwrap.bind GoError.Unwrap = some (.leaf "no host specified") ∧
      errors.Cause err = errors.Cause (.leaf "no host specified") ∧
      (GoError.Unwrap (.leaf "no host specified") = none →
        errors.Cause err = .leaf "no host specified") ∧
      err ≠ .leaf "no host specified" :=
  ⟨rfl, rfl,
   ssh_rejection_wraps_cause sampleDeps sampleState "ssh://" []
     ⟨"ssh", "", "", "//", "", ""⟩ (.leaf "no host specified") rfl rfl rfl⟩

/-- C7, as the spec words it, fails: on the URL `ssh://`, which parses with
scheme `ssh` and which the resolver rejects, the error returned is not the
cause wrapped under `invalid ssh host specification`, and that text does not
occur in its message, which is
`ssh host connection is not valid: no host specified`. -/
theorem ssh_rejection_text_differs_from_spec :
    sampleDeps.urlParse "ssh://" = .ok ⟨"ssh", "", "", "//", "", ""⟩ ∧
    sampleDeps.SpecFromURL "ssh://" = .error (.leaf "no host specified") ∧
    (getConnectionHelper sampleDeps "ssh://" [] sampleState).1.2 ≠
      errors.Wrap (some (.leaf "no host specified")) "invalid ssh host specification" ∧
    (getConnectionHelper sampleDeps "ssh://" [] sampleState).1.2.map GoError.Error =
      some "ssh host connection is not valid: no host specified" ∧
    (getConnectionHelper sampleDeps "ssh://" [] sampleState).1.2.map
        (fun err => occursIn "invalid ssh host specification".data err.Error.data) =
      some false :=
  ⟨rfl, rfl, by decide, by decide, by decide⟩

/-- C8: the built-in `ssh` case comes before the table. For every factory `F`
and every daemon URL whose parsed scheme is `ssh`, the result of
`getConnectionHelper` after `Register("ssh", F)` is the result without that
registration, and the state is left as it was, world included, so `F` is not
run. That result is the SSH validation error (a nil helper and the resolver's
error wrapped under `ssh host connection is not valid`) when the resolver
rejects the URL, and the built-in SSH helper with a nil error (the dialer that
calls the adapter with program `ssh`, and the fixed host) when it accepts
it. -/
theorem ssh_case_precedes_registry (deps : Deps W Ctx Conn)
    (st : State W Ctx Conn) (F : Factory W Ctx Conn) (daemonURL : String)
    (sshFlags : List String) (u : URL)
    (hparse : deps.urlParse daemonURL = .ok u) (hssh : u.Scheme = "ssh") :
    (getConnectionHelper deps daemonURL sshFlags (Register "ssh" F st)).1 =
      (getConnectionHelper deps daemonURL sshFlags st).1 ∧
    (getConnectionHelper deps daemonURL sshFlags (Register "ssh" F st)).2 =
      Register "ssh" F st ∧
    (getConnectionHelper deps daemonURL sshFlags st).2 = st ∧
    ((∃ e : GoError, deps.SpecFromURL daemonURL = .error e ∧
        (getConnectionHelper deps daemonURL sshFlags (Register "ssh" F st)).1 =
          (none, errors.Wrap (some e) "ssh host connection is not valid")) ∨
     (∃ sp : Spec, deps.SpecFromURL daemonURL = .ok sp ∧
        (getConnectionHelper deps daemonURL sshFlags (Register "ssh" F st)).1 =
          (some
            ⟨none,
             some (fun ctx _network _addr =>
               deps.commandconnNew ctx "ssh"
                 (sshFlags ++ sp.Args ["docker", "system", "dial-stdio"])),
             "http://docker.example.com"⟩,
           none))) := by
  cases hspec : deps.SpecFromURL daemonURL with
  | error e =>
    rw [dispatch_of_ssh_rejected deps daemonURL sshFlags _ u e hparse hssh hspec,
      dispatch_of_ssh_rejected deps daemonURL sshFlags st u e hparse hssh hspec]
    exact ⟨rfl, rfl, rfl, Or.inl ⟨e, rfl, rfl⟩⟩
  | ok sp =>
    rw [dispatch_of_ssh_accepted deps daemonURL sshFlags _ u sp hparse hssh hspec,
      dispatch_of_ssh_accepted deps daemonURL sshFlags st u sp hparse hssh hspec]
    exact ⟨rfl, rfl, rfl, Or.inr ⟨sp, rfl, rfl⟩⟩

/-- Witness of C8: a factory under `ssh`, and the URL
`ssh://alice@build.internal/`. -/
theorem ssh_case_precedes_registry_witness :
    sampleDeps.urlParse "ssh://alice@build.internal/"
      = .ok ⟨"ssh", "", "", "//alice@build.internal/", "", ""⟩ ∧
    (getConnectionHelper sampleDeps "ssh://alice@build.internal/" ["-4"]
        (Register "ssh" (failingFactory "F") sampleState)).1 =
      (getConnectionHelper sampleDeps "ssh://alice@build.internal/" ["-4"] sampleState).1 ∧
    (getConnectionHelper sampleDeps "ssh://alice@build.internal/" ["-4"]
        (Register "ssh" (failingFactory "F") sampleState)).2 =
      Register "ssh" (failingFactory "F") sampleState ∧
    (getConnectionHelper sampleDeps "ssh://alice@build.internal/" ["-4"] sampleState).2 =
      sampleState ∧
    ((∃ e : GoError, sampleDeps.SpecFromURL "ssh://alice@build.internal/" = .error e ∧
        (getConnectionHelper sampleDeps "ssh://alice@build.internal/" ["-4"]
            (Register "ssh" (failingFactory "F") sampleState)).1 =
          (none, errors.Wrap (some e) "ssh host connection is not valid")) ∨
     (∃ sp : Spec, sampleDeps.SpecFromURL "ssh://alice@build.internal/" = .ok sp ∧
        (getConnectionHelper sampleDeps "ssh://alice@build.internal/" ["-4"]
            (Register "ssh" (failingFactory "F") sampleState)).1 =
          (some
            ⟨none,
             some (fun ctx _network _addr =>
               sampleDeps.commandconnNew ctx "ssh"
                 (["-4"] ++ sp.Args ["docker", "system", "dial-stdio"])),
             "http://docker.example.com"⟩,
           none))) :=
  ⟨rfl,
   ssh_case_precedes_registry sampleDeps sampleState (failingFactory "F")
     "ssh://alice@build.internal/" ["-4"]
     ⟨"ssh", "", "", "//alice@build.internal/", "", ""⟩ rfl rfl⟩

/-- C9: the nominal host of the SSH helper is fixed. For any two daemon URLs
of scheme `ssh` that the resolver accepts and any two lists of flags, the
helpers that `getConnectionHelper` returns carry the same `Host`, the string
`http://docker.example.com`. -/
theorem ssh_helper_host_is_fixed (deps : Deps W Ctx Conn)
    (st₁ st₂ : State W Ctx Conn) (url₁ url₂ : String) (flags₁ flags₂ : List String)
    (u₁ u₂ : URL) (sp₁ sp₂ : Spec)
    (hparse₁ : deps.urlParse url₁ = .ok u₁) (hssh₁ : u₁.Scheme = "ssh")
    (hspec₁ : deps.SpecFromURL url₁ = .ok sp₁)
    (hparse₂ : deps.urlParse url₂ = .ok u₂) (hssh₂ : u₂.Scheme = "ssh")
    (hspec₂ : deps.SpecFromURL url₂ = .ok sp₂) :
    ∃ h₁ h₂ : ConnectionHelper W Ctx Conn,
      (getConnectionHelper deps url₁ flags₁ st₁).1 = (some h₁, none) ∧
      (getConnectionHelper deps url₂ flags₂ st₂).1 = (some h₂, none) ∧
      h₁.Host = "http://docker.example.com" ∧
      h₂.Host = h₁.Host := by
  rw [dispatch_of_ssh_accepted deps url₁ flags₁ st₁ u₁ sp₁ hparse₁ hssh₁ hspec₁,
    dispatch_of_ssh_accepted deps url₂ flags₂ st₂ u₂ sp₂ hparse₂ hssh₂ hspec₂]
  exact ⟨_, _, rfl, rfl, rfl, rfl⟩

/-- Witness of C9: the URLs `ssh://alice@build.internal/` and
`ssh://bob@10.0.0.7/`, with different flags. -/
theorem ssh_helper_host_is_fixed_witness :
    sampleDeps.urlParse "ssh://alice@build.internal/"
      = .ok ⟨"ssh", "", "", "//alice@build.internal/", "", ""⟩ ∧
    sampleDeps.SpecFromURL "ssh://alice@build.internal/"
      = .ok ⟨["--", "alice@build.internal"]⟩ ∧
    sampleDeps.urlParse "ssh://bob@10.0.0.7/"
      = .ok ⟨"ssh", "", "", "//bob@10.0.0.7/", "", ""⟩ ∧
    sampleDeps.SpecFromURL "ssh://bob@10.0.0.7/" = .ok ⟨["--", "bob@10.0.0.7"]⟩ ∧
    ∃ h₁ h₂ : ConnectionHelper (List (List String)) Nat (List String),
      (getConnectionHelper sampleDeps "ssh://alice@build.internal/" [] sampleState).1
        = (some h₁, none) ∧
      (getConnectionHelper sampleDeps "ssh://bob@10.0.0.7/" ["-4", "-v"] sampleState).1
        = (some h₂, none) ∧
      h₁.Host = "http://docker.example.com" ∧
      h₂.Host = h₁.Host :=
  ⟨rfl, rfl, rfl, rfl,
   ssh_helper_host_is_fixed sampleDeps sampleState sampleState
     "ssh://alice@build.internal/" "ssh://bob@10.0.0.7/" [] ["-4", "-v"]
     ⟨"ssh", "", "", "//alice@build.internal/", "", ""⟩
     ⟨"ssh", "", "", "//bob@10.0.0.7/", "", ""⟩
     ⟨["--", "alice@build.internal"]⟩ ⟨["--", "bob@10.0.0.7"]⟩
     rfl rfl rfl rfl rfl rfl⟩

/-- C10, as the code has it, on the state with factories that may call back
into the package. `Register(s, F)` changes the entry of `s` alone and leaves
the world alone. For a daemon URL whose parsed scheme is another scheme, and
whose factory in the table (if the dispatch runs one) makes no call back into
the package, `getConnectionHelper` returns, at every depth, the same result
and leaves the same world after `Register(s, F)` as before it, and leaves the
table as it was in both; when the scheme is not `ssh` and has a factory, that
result and world are those of running the factory on the parsed URL. And
every dispatch, on any URL, flags and state,
whose factory makes no call back returns and leaves the table as it was. The
factory `F` itself is arbitrary. -/
theorem register_frame_without_callbacks (deps : Deps W Ctx Conn) (depth : Nat)
    (st : Reentrant.State W Ctx Conn) (s : String) (F : Reentrant.Factory W Ctx Conn)
    (daemonURL : String) (sshFlags : List String) (u : URL)
    (hparse : deps.urlParse daemonURL = .ok u) (hother : u.Scheme ≠ s)
    (hfree : ∀ G : Reentrant.Factory W Ctx Conn,
      u.Scheme ≠ "ssh" → st.helpers u.Scheme = some G → (G u).callbackFree) :
    (∀ key : String, key ≠ s → (Reentrant.Register s F st).helpers key = st.helpers key) ∧
    (Reentrant.Register s F st).world = st.world ∧
    (∃ (result : HelperResult W Ctx Conn) (w' : W),
      Reentrant.getConnectionHelper deps depth daemonURL sshFlags st =
        some (result, ⟨st.helpers, w'⟩) ∧
      Reentrant.getConnectionHelper deps depth daemonURL sshFlags (Reentrant.Register s F st) =
        some (result, ⟨(Reentrant.Register s F st).helpers, w'⟩) ∧
      ∀ (G : Reentrant.Factory W Ctx Conn)
        (reenter : String → List String → Reentrant.State W Ctx Conn →
          Reentrant.Outcome W Ctx Conn),
        u.Scheme ≠ "ssh" → st.helpers u.Scheme = some G →
        (G u).run reenter st = some (result, ⟨st.helpers, w'⟩)) ∧
    (∀ (anyDepth : Nat) (anyURL : String) (anyFlags : List String)
        (anyState : Reentrant.State W Ctx Conn),
      (∀ (v : URL) (G : Reentrant.Factory W Ctx Conn),
        deps.urlParse anyURL = .ok v → v.Scheme ≠ "ssh" →
        anyState.helpers v.Scheme = some G → (G v).callbackFree) →
      ∃ (result : HelperResult W Ctx Conn) (w' : W),
        Reentrant.getConnectionHelper deps anyDepth anyURL anyFlags anyState =
          some (result, ⟨anyState.helpers, w'⟩)) := by
  refine ⟨fun key hkey => reentrant_register_other s key F st hkey, rfl, ?_,
    fun anyDepth anyURL anyFlags anyState hany =>
      reentrant_dispatch_keeps_table deps anyDepth anyURL anyFlags anyState hany⟩
  obtain ⟨reenter, hbody⟩ := reentrant_dispatch_is_body deps depth
  rw [hbody]
  unfold Reentrant.getConnectionHelperBody
  simp only [hparse, reentrant_register_other s u.Scheme F st hother]
  by_cases hssh : u.Scheme = "ssh"
  · cases hspec : deps.SpecFromURL daemonURL with
    | error err =>
      exact ⟨(none, errors.Wrap (some err) "ssh host connection is not valid"), st.world,
        by simp [hssh], by simp [hssh, Reentrant.Register],
        fun G _ hne _ => absurd hssh hne⟩
    | ok sp =>
      refine ⟨(some
          ⟨none,
           some (fun ctx _network _addr =>
             deps.commandconnNew ctx "ssh"
               (sshFlags ++ sp.Args ["docker", "system", "dial-stdio"])),
           "http://docker.example.com"⟩,
        none), st.world, ?_, ?_, fun G _ hne _ => absurd hssh hne⟩
      · simp [hssh]
      · simp [hssh, Reentrant.Register]
  · cases hlook : st.helpers u.Scheme with
    | none =>
      exact ⟨(none, none), st.world, by simp [hssh], by simp [hssh, Reentrant.Register],
        fun G _ _ hG => by simp at hG⟩
    | some G =>
      obtain ⟨result, w', hrun₁, hrun₂⟩ :=
        run_of_callbackFree (G u) (hfree G hssh hlook) reenter reenter
          st.helpers (Reentrant.Register s F st).helpers st.world
      refine ⟨result, w', by simpa [hssh] using hrun₁, by simpa [hssh] using hrun₂, ?_⟩
      intro G' reenter' _ hG'
      cases hG'
      obtain ⟨result', w'', hrun₃, hrun₄⟩ :=
        run_of_callbackFree (G u) (hfree G hssh hlook) reenter reenter'
          st.helpers st.helpers st.world
      rw [hrun₁] at hrun₃
      cases hrun₃
      exact hrun₄

/-- Witness of C10 as the code has it: a factory without call backs under
`bar`, then `Register("foo", ...)` of a factory that does call back, and the
URL `bar://y`. -/
theorem register_frame_without_callbacks_witness :
    sampleDeps.urlParse "bar://y" = .ok ⟨"bar", "", "", "//y", "", ""⟩ ∧
    (⟨"bar", "", "", "//y", "", ""⟩ : URL).Scheme ≠ "foo" ∧
    ∃ (result : HelperResult (List (List String)) Nat (List String))
      (w' : List (List String)),
      Reentrant.getConnectionHelper sampleDeps 0 "bar://y" []
          (Reentrant.Register "bar" (Reentrant.ofPlain (sampleFactory "B")) reentrantStart) =
        some (result,
          ⟨(Reentrant.Register "bar" (Reentrant.ofPlain (sampleFactory "B"))
              reentrantStart).helpers, w'⟩) ∧
      Reentrant.getConnectionHelper sampleDeps 0 "bar://y" []
          (Reentrant.Register "foo" aliasFactory
            (Reentrant.Register "bar" (Reentrant.ofPlain (sampleFactory "B")) reentrantStart)) =
        some (result,
          ⟨(Reentrant.Register "foo" aliasFactory
              (Reentrant.Register "bar" (Reentrant.ofPlain (sampleFactory "B"))
                reentrantStart)).helpers, w'⟩) ∧
      ∀ (G : Reentrant.Factory (List (List String)) Nat (List String))
        (reenter : String → List String →
          Reentrant.State (List (List String)) Nat (List String) →
          Reentrant.Outcome (List (List String)) Nat (List String)),
        (⟨"bar", "", "", "//y", "", ""⟩ : URL).Scheme ≠ "ssh" →
        (Reentrant.Register "bar" (Reentrant.ofPlain (sampleFactory "B"))
            reentrantStart).helpers (⟨"bar", "", "", "//y", "", ""⟩ : URL).Scheme = some G →
        (G ⟨"bar", "", "", "//y", "", ""⟩).run reenter
            (Reentrant.Register "bar" (Reentrant.ofPlain (sampleFactory "B")) reentrantStart) =
          some (result,
            ⟨(Reentrant.Register "bar" (Reentrant.ofPlain (sampleFactory "B"))
                reentrantStart).helpers, w'⟩) :=
  ⟨rfl, by decide,
   (register_frame_without_callbacks sampleDeps 0
     (Reentrant.Register "bar" (Reentrant.ofPlain (sampleFactory "B")) reentrantStart)
     "foo" aliasFactory "bar://y" [] ⟨"bar", "", "", "//y", "", ""⟩ rfl (by decide)
     (fun G _ hG => by
       simp only [Reentrant.Register, if_true] at hG
       cases hG
       simp [Reentrant.ofPlain, Reentrant.Prog.callbackFree])).2.2.1⟩

/-- C10, as the spec words it, fails on factories that call back into the
package. First half: with `aliasFactory` under `bar`, which hands `foo://x` to
the dispatcher, the URL `bar://y` (scheme `bar`, not `foo`) yields a nil error
before `Register("foo", failingFactory)` and the error of that factory after
it. Second half: with `registeringFactory` under `bar`, the table has no entry
for `baz` before the dispatch of `bar://y` and has one after it. -/
theorem register_frame_fails_with_callbacks :
    sampleDeps.urlParse "bar://y" = .ok ⟨"bar", "", "", "//y", "", ""⟩ ∧
    (⟨"bar", "", "", "//y", "", ""⟩ : URL).Scheme ≠ "foo" ∧
    (Reentrant.getConnectionHelper sampleDeps 1 "bar://y" []
        (Reentrant.Register "bar" aliasFactory reentrantStart)).map (fun out => out.1.2) =
      some none ∧
    (Reentrant.getConnectionHelper sampleDeps 1 "bar://y" []
        (Reentrant.Register "foo" (Reentrant.ofPlain (failingFactory "F"))
          (Reentrant.Register "bar" aliasFactory reentrantStart))).map (fun out => out.1.2) =
      some (some (.leaf "factory failed")) ∧
    ((Reentrant.Register "bar" registeringFactory reentrantStart).helpers "baz").isSome =
      false ∧
    (Reentrant.getConnectionHelper sampleDeps 0 "bar://y" []
        (Reentrant.Register "bar" registeringFactory reentrantStart)).map
        (fun out => (out.2.helpers "baz").isSome) =
      some true :=
  ⟨rfl, by decide, rfl, rfl, rfl, rfl⟩

end Claims

end connhelper
